import Mathlib

/-!
# Verification of the image-analysis pipeline (`src/image_analyzer.py`)

A shallow embedding of the `ImageAnalyzer` class.  Python floats are
modelled as exact rationals (`ℚ`); quantities whose computation involves
square roots or logarithms (numpy `std`, Shannon entropy, gradient
magnitudes) are modelled over `ℝ`.  Machine-byte values are `ℕ` with an
explicit `% 256` where the numpy `uint8` arithmetic wraps.  Fallible
operations (PIL decoding, preprocessing) are modelled as `Except`/`Option`
inputs, since PIL/numpy are external libraries: their outcomes are oracle
inputs to the embedded control flow.  Wall-clock timestamps
(`datetime.now()`) are modelled as an explicit `now : String` input.
-/

namespace ImageAnalyzer

/-! ## numpy-style statistics over exact rationals

`npMean`/`npVar` model `np.mean`/`np.var` (population variance).  Rational
division by zero yields `0` in Lean, whereas numpy produces `nan` on an
empty array; every image reaching these functions in the pipeline has at
least 100×100 pixels, so the empty case never arises there.
-/

def npMean (xs : List ℚ) : ℚ := xs.sum / (xs.length : ℚ)

def npVar (xs : List ℚ) : ℚ :=
  (xs.map (fun x => (x - npMean xs) ^ 2)).sum / (xs.length : ℚ)

/-- `np.std` (square root of the population variance), real-valued. -/
noncomputable def npStd (xs : List ℚ) : ℝ := Real.sqrt ((npVar xs : ℚ) : ℝ)

/-- Mean of a list of reals (used for the edge-magnitude statistics). -/
noncomputable def npMeanR (xs : List ℝ) : ℝ := xs.sum / (xs.length : ℝ)

/-- Population variance over reals. -/
noncomputable def npVarR (xs : List ℝ) : ℝ :=
  (xs.map (fun x => (x - npMeanR xs) ^ 2)).sum / (xs.length : ℝ)

/-- `np.std` over reals. -/
noncomputable def npStdR (xs : List ℝ) : ℝ := Real.sqrt (npVarR xs)

/-- `max(lo, min(hi, x))`: the clamp used by the spec for the redness score. -/
def clamp (lo hi x : ℚ) : ℚ := max lo (min hi x)

/-! ## MD5 (`hashlib.md5(...).hexdigest()`)

`validate_image` fingerprints the raw bytes with
`hashlib.md5(image_data).hexdigest()`.  This is a faithful RFC 1321
implementation over byte lists (`List ℕ`, each entry < 256). -/

def mask32 : ℕ := 0xffffffff

def add32 (a b : ℕ) : ℕ := (a + b) % 4294967296

def not32 (x : ℕ) : ℕ := Nat.xor x mask32

def rotl32 (x s : ℕ) : ℕ := (Nat.lor (x <<< s) (x >>> (32 - s))) % 4294967296

def md5F (b c d : ℕ) : ℕ := Nat.lor (Nat.land b c) (Nat.land (not32 b) d)

def md5G (b c d : ℕ) : ℕ := Nat.lor (Nat.land d b) (Nat.land (not32 d) c)

def md5H (b c d : ℕ) : ℕ := Nat.xor (Nat.xor b c) d

def md5I (b c d : ℕ) : ℕ := Nat.xor c (Nat.lor b (not32 d))

def md5K : List ℕ :=
  [0xd76aa478, 0xe8c7b756, 0x242070db, 0xc1bdceee,
   0xf57c0faf, 0x4787c62a, 0xa8304613, 0xfd469501,
   0x698098d8, 0x8b44f7af, 0xffff5bb1, 0x895cd7be,
   0x6b901122, 0xfd987193, 0xa679438e, 0x49b40821,
   0xf61e2562, 0xc040b340, 0x265e5a51, 0xe9b6c7aa,
   0xd62f105d, 0x02441453, 0xd8a1e681, 0xe7d3fbc8,
   0x21e1cde6, 0xc33707d6, 0xf4d50d87, 0x455a14ed,
   0xa9e3e905, 0xfcefa3f8, 0x676f02d9, 0x8d2a4c8a,
   0xfffa3942, 0x8771f681, 0x6d9d6122, 0xfde5380c,
   0xa4beea44, 0x4bdecfa9, 0xf6bb4b60, 0xbebfbc70,
   0x289b7ec6, 0xeaa127fa, 0xd4ef3085, 0x04881d05,
   0xd9d4d039, 0xe6db99e5, 0x1fa27cf8, 0xc4ac5665,
   0xf4292244, 0x432aff97, 0xab9423a7, 0xfc93a039,
   0x655b59c3, 0x8f0ccc92, 0xffeff47d, 0x85845dd1,
   0x6fa87e4f, 0xfe2ce6e0, 0xa3014314, 0x4e0811a1,
   0xf7537e82, 0xbd3af235, 0x2ad7d2bb, 0xeb86d391]

def md5S : List ℕ :=
  [7, 12, 17, 22, 7, 12, 17, 22, 7, 12, 17, 22, 7, 12, 17, 22,
   5, 9, 14, 20, 5, 9, 14, 20, 5, 9, 14, 20, 5, 9, 14, 20,
   4, 11, 16, 23, 4, 11, 16, 23, 4, 11, 16, 23, 4, 11, 16, 23,
   6, 10, 15, 21, 6, 10, 15, 21, 6, 10, 15, 21, 6, 10, 15, 21]

/-- Merkle–Damgård padding: `0x80`, zeros to 56 mod 64, then the bit
length as a 64-bit little-endian quantity. -/
def md5Pad (msg : List ℕ) : List ℕ :=
  let bitLen := msg.length * 8
  let padZeros := (119 - msg.length % 64) % 64
  msg ++ [0x80] ++ List.replicate padZeros 0 ++
    (List.range 8).map (fun i => (bitLen >>> (8 * i)) % 256)

/-- The sixteen 32-bit little-endian words of a 64-byte block. -/
def md5Words (block : List ℕ) : List ℕ :=
  (List.range 16).map (fun j =>
    block.getD (4 * j) 0 + 256 * block.getD (4 * j + 1) 0 +
    65536 * block.getD (4 * j + 2) 0 + 16777216 * block.getD (4 * j + 3) 0)

/-- One of the 64 MD5 rounds. -/
def md5Step (M : List ℕ) (st : ℕ × ℕ × ℕ × ℕ) (i : ℕ) : ℕ × ℕ × ℕ × ℕ :=
  let a := st.1
  let b := st.2.1
  let c := st.2.2.1
  let d := st.2.2.2
  let fg : ℕ × ℕ :=
    if i < 16 then (md5F b c d, i)
    else if i < 32 then (md5G b c d, (5 * i + 1) % 16)
    else if i < 48 then (md5H b c d, (3 * i + 5) % 16)
    else (md5I b c d, (7 * i) % 16)
  let tmp := add32 (add32 (add32 a fg.1) (md5K.getD i 0)) (M.getD fg.2 0)
  (d, add32 b (rotl32 tmp (md5S.getD i 0)), b, c)

/-- Compress one 64-byte block into the running state. -/
def md5Block (st : ℕ × ℕ × ℕ × ℕ) (block : List ℕ) : ℕ × ℕ × ℕ × ℕ :=
  let M := md5Words block
  let r := (List.range 64).foldl (md5Step M) st
  (add32 st.1 r.1, add32 st.2.1 r.2.1, add32 st.2.2.1 r.2.2.1,
   add32 st.2.2.2 r.2.2.2)

/-- Fold the compression function over a padded message: walk the bytes
accumulating the current block and compress each time 64 bytes are
gathered.  (Structural recursion on the byte list, so that the kernel
can evaluate concrete digests.) -/
def md5Fold (st : ℕ × ℕ × ℕ × ℕ) (acc : List ℕ) : List ℕ → ℕ × ℕ × ℕ × ℕ
  | [] => st
  | b :: rest =>
    if acc.length = 63 then md5Fold (md5Block st (acc ++ [b])) [] rest
    else md5Fold st (acc ++ [b]) rest

def toHexDigit (n : ℕ) : Char :=
  if n < 10 then Char.ofNat (48 + n) else Char.ofNat (87 + n)

def byteToHex (b : ℕ) : String :=
  String.mk [toHexDigit (b / 16 % 16), toHexDigit (b % 16)]

def wordLEBytes (w : ℕ) : List ℕ :=
  [w % 256, (w >>> 8) % 256, (w >>> 16) % 256, (w >>> 24) % 256]

/-- `hashlib.md5(msg).hexdigest()`: lowercase hex digest of the byte list. -/
def md5Hex (msg : List ℕ) : String :=
  let r := md5Fold (0x67452301, 0xefcdab89, 0x98badcfe, 0x10325476) [] (md5Pad msg)
  String.join ((wordLEBytes r.1 ++ wordLEBytes r.2.1 ++ wordLEBytes r.2.2.1 ++
    wordLEBytes r.2.2.2).map byteToHex)

/-- First message of the classical two-block MD5 collision (Wang et al.). -/
def collisionMsgA : List ℕ :=
  [0xd1, 0x31, 0xdd, 0x02, 0xc5, 0xe6, 0xee, 0xc4, 0x69, 0x3d, 0x9a, 0x06, 0x98, 0xaf, 0xf9, 0x5c,
   0x2f, 0xca, 0xb5, 0x87, 0x12, 0x46, 0x7e, 0xab, 0x40, 0x04, 0x58, 0x3e, 0xb8, 0xfb, 0x7f, 0x89,
   0x55, 0xad, 0x34, 0x06, 0x09, 0xf4, 0xb3, 0x02, 0x83, 0xe4, 0x88, 0x83, 0x25, 0x71, 0x41, 0x5a,
   0x08, 0x51, 0x25, 0xe8, 0xf7, 0xcd, 0xc9, 0x9f, 0xd9, 0x1d, 0xbd, 0xf2, 0x80, 0x37, 0x3c, 0x5b,
   0xd8, 0x82, 0x3e, 0x31, 0x56, 0x34, 0x8f, 0x5b, 0xae, 0x6d, 0xac, 0xd4, 0x36, 0xc9, 0x19, 0xc6,
   0xdd, 0x53, 0xe2, 0xb4, 0x87, 0xda, 0x03, 0xfd, 0x02, 0x39, 0x63, 0x06, 0xd2, 0x48, 0xcd, 0xa0,
   0xe9, 0x9f, 0x33, 0x42, 0x0f, 0x57, 0x7e, 0xe8, 0xce, 0x54, 0xb6, 0x70, 0x80, 0xa8, 0x0d, 0x1e,
   0xc6, 0x98, 0x21, 0xbc, 0xb6, 0xa8, 0x83, 0x93, 0x96, 0xf9, 0x65, 0x2b, 0x6f, 0xf7, 0x2a, 0x70]

/-- Second message of the collision pair: differs from `collisionMsgA` in
exactly six bytes (offsets 19, 45, 59, 83, 109, 123). -/
def collisionMsgB : List ℕ :=
  [0xd1, 0x31, 0xdd, 0x02, 0xc5, 0xe6, 0xee, 0xc4, 0x69, 0x3d, 0x9a, 0x06, 0x98, 0xaf, 0xf9, 0x5c,
   0x2f, 0xca, 0xb5, 0x07, 0x12, 0x46, 0x7e, 0xab, 0x40, 0x04, 0x58, 0x3e, 0xb8, 0xfb, 0x7f, 0x89,
   0x55, 0xad, 0x34, 0x06, 0x09, 0xf4, 0xb3, 0x02, 0x83, 0xe4, 0x88, 0x83, 0x25, 0xf1, 0x41, 0x5a,
   0x08, 0x51, 0x25, 0xe8, 0xf7, 0xcd, 0xc9, 0x9f, 0xd9, 0x1d, 0xbd, 0x72, 0x80, 0x37, 0x3c, 0x5b,
   0xd8, 0x82, 0x3e, 0x31, 0x56, 0x34, 0x8f, 0x5b, 0xae, 0x6d, 0xac, 0xd4, 0x36, 0xc9, 0x19, 0xc6,
   0xdd, 0x53, 0xe2, 0x34, 0x87, 0xda, 0x03, 0xfd, 0x02, 0x39, 0x63, 0x06, 0xd2, 0x48, 0xcd, 0xa0,
   0xe9, 0x9f, 0x33, 0x42, 0x0f, 0x57, 0x7e, 0xe8, 0xce, 0x54, 0xb6, 0x70, 0x80, 0x28, 0x0d, 0x1e,
   0xc6, 0x98, 0x21, 0xbc, 0xb6, 0xa8, 0x83, 0x93, 0x96, 0xf9, 0x65, 0xab, 0x6f, 0xf7, 0x2a, 0x70]

/-! ## Image validator (`validate_image`, `_extract_exif_data`)

PIL decoding is an external-library effect: the decode outcome is an
`Except String DecodedImage` input (`Except.error e` models
`Image.open` raising, with `e` the exception text).  `datetime.now()` is
the explicit `now` argument. -/

/-- The result of a successful `PIL.Image.open`: the attributes the
validator reads.  `exif` is the `_getexif()` dictionary (tag id ↦ value,
values rendered as strings). -/
structure DecodedImage where
  format : Option String
  mode : String
  width : ℕ
  height : ℕ
  exif : List (ℕ × String)

/-- `self.supported_formats` from `__init__`. -/
def supported_formats : List String := ["jpg", "jpeg", "png", "webp"]

/-- `self.max_image_size = 10 * 1024 * 1024`. -/
def max_image_size : ℕ := 10 * 1024 * 1024

/-- `self.min_image_size = 1024`. -/
def min_image_size : ℕ := 1024

/-- The `relevant_tags` table of `_extract_exif_data`. -/
def relevantExifTags : List (String × ℕ) :=
  [("DateTime", 306), ("Make", 271), ("Model", 272),
   ("Orientation", 274), ("Flash", 37385)]

/-- `_extract_exif_data`: keep only the relevant tags that are present
(the `except: return {}` branch has no counterpart because the embedded
lookup cannot raise). -/
def _extract_exif_data (exif : List (ℕ × String)) : List (String × String) :=
  relevantExifTags.filterMap (fun nt => (exif.lookup nt.2).map (fun v => (nt.1, v)))

/-- Python `str.lower()` as applied to PIL format names (ASCII):
lower-case every Latin capital letter.  (Implemented directly over the
character list so that the kernel can evaluate it on concrete
formats.) -/
def pyLower (s : String) : String :=
  String.mk (s.data.map (fun c =>
    if 65 ≤ c.toNat ∧ c.toNat ≤ 90 then Char.ofNat (c.toNat + 32) else c))

/-- Python `round(q, 2)` on the aspect ratio.  (Python rounds half to
even on floats; this embedding rounds half away from zero — the two only
differ on exact half-hundredths, and no claim depends on the aspect
ratio.) -/
def pyRound2 (q : ℚ) : ℚ := ((round (q * 100) : ℤ) : ℚ) / 100

/-- The metadata dictionary built by `validate_image`. -/
structure ImageMetadata where
  format : Option String
  mode : String
  size : ℕ × ℕ
  file_size : ℕ
  aspect_ratio : ℚ
  timestamp : String
  image_hash : String
  exif : Option (List (String × String))

/-- The `(is_valid, error_message, metadata)` triple returned by
`validate_image`. -/
structure ValidationOutcome where
  is_valid : Bool
  message : String
  metadata : Option ImageMetadata

/-- `validate_image`: size bounds, decode, format, resolution, metadata.
The `content_type` argument is accepted and ignored, as in the source. -/
def validate_image (image_data : List ℕ) (content_type : String)
    (decoded : Except String DecodedImage) (now : String) : ValidationOutcome :=
  if max_image_size < image_data.length then
    ⟨false, "Image too large. Please send an image smaller than 10MB.", none⟩
  else if image_data.length < min_image_size then
    ⟨false, "Image too small. Please send a clear image.", none⟩
  else
    match decoded with
    | Except.error e => ⟨false, "Invalid image file. Error: " ++ e, none⟩
    | Except.ok image =>
      let format_lower := (image.format.map pyLower).getD ""
      if ¬ supported_formats.contains format_lower then
        ⟨false, "Unsupported format. Please send: " ++
          String.intercalate ", " supported_formats, none⟩
      else if image.width < 100 ∨ image.height < 100 then
        ⟨false, "Image resolution too low. Please send a clearer image.", none⟩
      else
        ⟨true, "Image valid",
         some { format := image.format
                mode := image.mode
                size := (image.width, image.height)
                file_size := image_data.length
                aspect_ratio := pyRound2 ((image.width : ℚ) / (image.height : ℚ))
                timestamp := now
                image_hash := md5Hex image_data
                exif := if image.exif ≠ [] then some (_extract_exif_data image.exif)
                        else none }⟩

/-! ## Pixel data and the color analyzer -/

/-- One RGB pixel (each channel a byte, 0–255). -/
structure RGBPixel where
  r : ℕ
  g : ℕ
  b : ℕ
deriving DecidableEq

/-- An RGB raster: the rows of the (converted, resized) PIL image. -/
structure Image where
  pixels : List (List RGBPixel)
deriving DecidableEq

def Image.width (img : Image) : ℕ := (img.pixels.headD []).length

def Image.height (img : Image) : ℕ := img.pixels.length

/-- All pixels in row-major order (`img_array.reshape(-1, 3)`). -/
def Image.allPixels (img : Image) : List RGBPixel := img.pixels.flatten

def redChannel (img : Image) : List ℕ := img.allPixels.map RGBPixel.r

def greenChannel (img : Image) : List ℕ := img.allPixels.map RGBPixel.g

def blueChannel (img : Image) : List ℕ := img.allPixels.map RGBPixel.b

/-- Every channel value of every pixel, as `np.array(image)` flattens. -/
def allChannelValues (img : Image) : List ℕ :=
  img.allPixels.map RGBPixel.r ++ img.allPixels.map RGBPixel.g ++
    img.allPixels.map RGBPixel.b

/-- `_calculate_redness_score` over the three channel arrays. -/
def _calculate_redness_score (r g b : List ℕ) : ℚ :=
  let r_mean := npMean (r.map (fun x => (x : ℚ)))
  let g_mean := npMean (g.map (fun x => (x : ℚ)))
  let b_mean := npMean (b.map (fun x => (x : ℚ)))
  if 0 < g_mean ∧ 0 < b_mean then
    let redness := ((r_mean - g_mean) + (r_mean - b_mean)) / 2
    max 0 (min 100 (redness / 2.55))
  else 0

/-- `_get_dominant_color`: per-channel mean, truncated by `int(c)`
(the means are non-negative, so truncation is the floor). -/
def _get_dominant_color (img : Image) : List ℤ :=
  [Int.floor (npMean ((redChannel img).map (fun x => (x : ℚ)))),
   Int.floor (npMean ((greenChannel img).map (fun x => (x : ℚ)))),
   Int.floor (npMean ((blueChannel img).map (fun x => (x : ℚ))))]

/-- The `inflammation` dictionary of `_detect_inflammation`. -/
structure InflammationIndicators where
  red_dominant_percentage : ℚ
  likely_inflamed : Bool
  severity_estimate : String
deriving DecidableEq

/-- `np.sum((r_channel > g_channel + 20) & (r_channel > b_channel + 20))`.
The channel arrays are numpy `uint8`, so `g + 20` and `b + 20` wrap
modulo 256 before the comparison. -/
def red_dominant_count (pixels : List RGBPixel) : ℕ :=
  pixels.countP (fun p => decide ((p.g + 20) % 256 < p.r) &&
    decide ((p.b + 20) % 256 < p.r))

/-- `_detect_inflammation`.  (The source also computes `r_mean`/`g_mean`
locally but never uses them.)  `likely_inflamed` and `severity_estimate`
threshold the red-dominant *fraction*, while `red_dominant_percentage`
is that fraction times 100. -/
def _detect_inflammation (img : Image) : InflammationIndicators :=
  let red_dominant := red_dominant_count img.allPixels
  let total_pixels := (img.allPixels.length : ℚ)
  { red_dominant_percentage := (red_dominant : ℚ) / total_pixels * 100
    likely_inflamed := decide ((0.3 : ℚ) < (red_dominant : ℚ) / total_pixels)
    severity_estimate :=
      if (0.5 : ℚ) < (red_dominant : ℚ) / total_pixels then "high"
      else if (0.3 : ℚ) < (red_dominant : ℚ) / total_pixels then "medium"
      else "low" }

/-- The `color_stats` dictionary of `analyze_colors`.  `std_rgb` and
`color_variance` are numpy standard deviations (square roots), hence
real-valued. -/
structure ColorAnalysis where
  mean_rgb : List ℚ
  std_rgb : List ℝ
  dominant_color : List ℤ
  redness_score : ℚ
  color_variance : ℝ
  inflammation_indicators : InflammationIndicators

/-! ## Texture analyzer (`analyze_texture` and helpers)

`analyze_texture` first converts the image with `image.convert('L')`;
PIL uses the ITU-R 601-2 luma transform `L = (R*299 + G*587 + B*114) /
1000` (fixed-point, truncating).  The four statistics are then computed
from the grayscale array. -/

/-- A grayscale raster (`gray_array`): rows of byte intensities. -/
def GrayImage : Type := List (List ℕ)

/-- All intensities in row-major order (numpy flattening). -/
def grayValues (gray_array : GrayImage) : List ℚ :=
  (List.flatten gray_array).map (fun x => (x : ℚ))

/-- The number of entries of the 2-D array (`gray_array.size`). -/
def graySize (gray_array : GrayImage) : ℕ := (List.flatten gray_array).length

/-- `image.convert('L')`. -/
def toGray (image : Image) : GrayImage :=
  image.pixels.map (fun row =>
    row.map (fun p => (p.r * 299 + p.g * 587 + p.b * 114) / 1000))

/-- `_calculate_smoothness`: `1 - 1/(1 + variance)` of the intensities. -/
def _calculate_smoothness (gray_array : GrayImage) : ℚ :=
  let variance := npVar (grayValues gray_array)
  1 - 1 / (1 + variance)

/-- The 256-bin intensity histogram of
`np.histogram(gray_array.flatten(), bins=256, range=(0, 256))`.
(Byte-valued intensities always lie inside the bin range; numpy's merge
of the value 256 into the last bin therefore never triggers.) -/
def grayHistogram (gray_array : GrayImage) : List ℕ :=
  (List.range 256).map (fun k => (List.flatten gray_array).count k)

/-- The normalized histogram `histogram / histogram.sum()`. -/
def grayHistProbs (gray_array : GrayImage) : List ℚ :=
  (grayHistogram gray_array).map
    (fun c => (c : ℚ) / (((grayHistogram gray_array).sum : ℕ) : ℚ))

/-- `_calculate_uniformity`: sum of squared bin probabilities. -/
def _calculate_uniformity (gray_array : GrayImage) : ℚ :=
  ((grayHistProbs gray_array).map (fun p => p ^ 2)).sum

/-- `_calculate_entropy`: Shannon entropy (base 2) of the non-zero bins. -/
noncomputable def _calculate_entropy (gray_array : GrayImage) : ℝ :=
  -(((grayHistProbs gray_array).filter (fun p => 0 < p)).map
      (fun p => (p : ℝ) * Real.logb 2 (p : ℝ))).sum

/-- `np.gradient` along one axis with the default `edge_order=1`:
one-sided differences at the two ends, central differences inside.
(numpy raises for axes shorter than 2; the embedding returns `[0]` for a
singleton axis, a case no pipeline image reaches.) -/
def npGradient1D (a : List ℚ) : List ℚ :=
  match a with
  | [] => []
  | [_] => [0]
  | _ =>
    (List.range a.length).map (fun i =>
      if i = 0 then a.getD 1 0 - a.getD 0 0
      else if i = a.length - 1 then a.getD i 0 - a.getD (i - 1) 0
      else (a.getD (i + 1) 0 - a.getD (i - 1) 0) / 2)

/-- `np.abs(np.gradient(gray_array, axis=1))`, row by row.  (numpy
promotes the `uint8` input to `float64`, so there is no wraparound.) -/
def gradX (gray_array : GrayImage) : List (List ℚ) :=
  (gray_array.map (fun row => row.map (fun x => (x : ℚ)))).map
    (fun row => (npGradient1D row).map abs)

/-- `np.abs(np.gradient(gray_array, axis=0))`: gradients down each
column, transposed back to row-major shape. -/
def gradY (gray_array : GrayImage) : List (List ℚ) :=
  (((gray_array.map (fun row => row.map (fun x => (x : ℚ)))).transpose).map
    (fun col => (npGradient1D col).map abs)).transpose

/-- `edge_magnitude = np.sqrt(grad_x**2 + grad_y**2)`, flattened. -/
noncomputable def edgeMagnitudes (gray_array : GrayImage) : List ℝ :=
  List.zipWith (fun x y => Real.sqrt (((x : ℚ) : ℝ) ^ 2 + ((y : ℚ) : ℝ) ^ 2))
    (List.flatten (gradX gray_array)) (List.flatten (gradY gray_array))

open Classical in
/-- `_calculate_edge_density`: fraction of pixels whose gradient
magnitude exceeds `mean + std` of the magnitudes. -/
noncomputable def _calculate_edge_density (gray_array : GrayImage) : ℚ :=
  let mags := edgeMagnitudes gray_array
  let edge_threshold := npMeanR mags + npStdR mags
  let edge_pixels := mags.countP (fun m => decide (edge_threshold < m))
  (edge_pixels : ℚ) / (graySize gray_array : ℚ)

/-- The `texture_stats` dictionary of `analyze_texture`. -/
structure TextureAnalysis where
  smoothness : ℚ
  uniformity : ℚ
  entropy : ℝ
  edge_density : ℚ
  texture_type : String

/-- The `texture_stats` computation of `analyze_texture`, as a function
of the grayscale array. -/
noncomputable def textureStats (gray_array : GrayImage) : TextureAnalysis :=
  { smoothness := _calculate_smoothness gray_array
    uniformity := _calculate_uniformity gray_array
    entropy := _calculate_entropy gray_array
    edge_density := _calculate_edge_density gray_array
    texture_type := if _calculate_smoothness gray_array < 0.5 then "rough"
                    else "smooth" }

/-- `analyze_texture`: grayscale conversion followed by the statistics. -/
noncomputable def analyze_texture (image : Image) : TextureAnalysis :=
  textureStats (toGray image)

/-- `analyze_colors` on the (enhanced) image. -/
noncomputable def analyze_colors (image : Image) : ColorAnalysis :=
  { mean_rgb := [npMean ((redChannel image).map (fun x => (x : ℚ))),
                 npMean ((greenChannel image).map (fun x => (x : ℚ))),
                 npMean ((blueChannel image).map (fun x => (x : ℚ)))]
    std_rgb := [npStd ((redChannel image).map (fun x => (x : ℚ))),
                npStd ((greenChannel image).map (fun x => (x : ℚ))),
                npStd ((blueChannel image).map (fun x => (x : ℚ)))]
    dominant_color := _get_dominant_color image
    redness_score := _calculate_redness_score (redChannel image)
      (greenChannel image) (blueChannel image)
    color_variance := npStd ((allChannelValues image).map (fun x => (x : ℚ)))
    inflammation_indicators := _detect_inflammation image }

/-! ## Condition classifier (`detect_skin_condition_type`) -/

/-- One finding dictionary appended by the rule chain. -/
structure ConditionFinding where
  condition : String
  confidence : String
  indicators : List String
  warning : Option String
deriving DecidableEq

/-- The dictionary returned by `detect_skin_condition_type`.
`confidence_scores` keeps insertion order, like the Python dict. -/
structure Detection where
  findings : List ConditionFinding
  confidence_scores : List (String × ℚ)
  requires_professional_evaluation : Bool
deriving DecidableEq

/-- `detect_skin_condition_type`: the four-rule forward chain.  Each
`let` step appends the findings/score entries of one source `if`. -/
def detect_skin_condition_type (color_analysis : ColorAnalysis)
    (texture_analysis : TextureAnalysis) : Detection :=
  let redness_score := color_analysis.redness_score
  let inflammation := color_analysis.inflammation_indicators
  let texture_type := texture_analysis.texture_type
  let acc0 : List ConditionFinding × List (String × ℚ) := ([], [])
  let acc1 :=
    if 30 < redness_score then
      let accA :=
        if 40 < inflammation.red_dominant_percentage then
          (acc0.1 ++ [{ condition := "inflammatory_skin_condition"
                        confidence := "moderate"
                        indicators := ["high_redness", "inflammation_detected"]
                        warning := none }],
           acc0.2 ++ [("inflammatory", min 95 (redness_score + 20))])
        else acc0
      if texture_type = "rough" then
        (accA.1 ++ [{ condition := "possible_rash_or_eczema"
                      confidence := "moderate"
                      indicators := ["redness", "rough_texture"]
                      warning := none }],
         accA.2 ++ [("rash_eczema", 65)])
      else accA
    else acc0
  let acc2 :=
    if 0.15 < texture_analysis.edge_density then
      (acc1.1 ++ [{ condition := "irregular_surface_texture"
                    confidence := "low-moderate"
                    indicators := ["high_edge_density", "texture_variation"]
                    warning := none }],
       acc1.2 ++ [("irregular_texture", 55)])
    else acc1
  let dominant_color := color_analysis.dominant_color
  let acc3 :=
    if (dominant_color.all fun c => decide (c < 80)) ∧ dominant_color.sum < 180 then
      (acc2.1 ++ [{ condition := "dark_pigmentation"
                    confidence := "low"
                    indicators := ["dark_coloration"]
                    warning := some "URGENT: Dark or irregular moles should be checked by a dermatologist immediately" }],
       acc2.2 ++ [("pigmentation_concern", 40)])
    else acc2
  { findings := acc3.1
    confidence_scores := acc3.2
    requires_professional_evaluation := decide (0 < acc3.1.length) }

/-! ## Severity scorer (`_assess_severity`) -/

/-- `_get_severity_description` (table lookup with an
`Assessment completed.` default; the `urgency` argument is unused in the
source too). -/
def _get_severity_description (level : String) (urgency : String) : String :=
  if level = "severe" then
    "Significant visible changes detected. Immediate medical attention recommended."
  else if level = "moderate" then
    "Noticeable skin changes detected. Medical consultation recommended within 1-2 days."
  else if level = "mild" then
    "Minor skin changes detected. Monitor and consult doctor if worsens."
  else if level = "minimal" then
    "Minimal changes detected. Continue monitoring."
  else "Assessment completed."

/-- The severity dictionary. -/
structure SeverityAssessment where
  level : String
  urgency : String
  score : ℕ
  max_score : ℕ
  description : String
deriving DecidableEq

/-- `_assess_severity`: three sequential capped contributions followed by
the level/urgency ladder. -/
def _assess_severity (color_analysis : ColorAnalysis)
    (texture_analysis : TextureAnalysis) : SeverityAssessment :=
  let redness_score := color_analysis.redness_score
  let red_percentage := color_analysis.inflammation_indicators.red_dominant_percentage
  let s0 : ℕ := 0
  let s1 := if 60 < redness_score then s0 + 3
            else if 40 < redness_score then s0 + 2
            else if 20 < redness_score then s0 + 1
            else s0
  let s2 := if 50 < red_percentage then s1 + 3
            else if 30 < red_percentage then s1 + 2
            else if 15 < red_percentage then s1 + 1
            else s1
  let severity_score := if 0.2 < texture_analysis.edge_density then s2 + 1 else s2
  let lu : String × String :=
    if 6 ≤ severity_score then ("severe", "high")
    else if 4 ≤ severity_score then ("moderate", "medium")
    else if 2 ≤ severity_score then ("mild", "low")
    else ("minimal", "routine")
  { level := lu.1
    urgency := lu.2
    score := severity_score
    max_score := 7
    description := _get_severity_description lu.1 lu.2 }

/-! ## Recommendations, next steps, confidence, disclaimer -/

/-- Python `'...'.title()` restricted to the lowercase condition tags it
is applied to: capitalize each space-separated word. -/
def pyTitle (s : String) : String :=
  String.intercalate " " ((s.splitOn " ").map String.capitalize)

/-- The per-finding loop of the Hindi branch of
`_get_detailed_recommendations`. -/
def findingLinesHindi (findings : List ConditionFinding) : List String :=
  (findings.enum.map (fun p =>
    [toString (p.1 + 1) ++ ". " ++ pyTitle (p.2.condition.replace "_" " ")] ++
    (match p.2.warning with
     | some w => ["   ⚠️ " ++ w]
     | none => []))).flatten

/-- The per-finding loop of the English branch of
`_get_detailed_recommendations`. -/
def findingLinesEnglish (findings : List ConditionFinding) : List String :=
  (findings.enum.map (fun p =>
    [toString (p.1 + 1) ++ ". " ++ pyTitle (p.2.condition.replace "_" " ") ++
      " (Confidence: " ++ p.2.confidence ++ ")"] ++
    (match p.2.warning with
     | some w => ["   ⚠️ " ++ w]
     | none => []))).flatten

/-- The severity-based tail block, Hindi branch. -/
def severityBlockHindi (severity_level : String) : List String :=
  if severity_level = "severe" then
    ["🚨 URGENT ACTION REQUIRED:", "• Immediately doctor se milein",
     "• Emergency mein hospital jaayein", "• Self-medication avoid karein", ""]
  else if severity_level = "moderate" then
    ["⚠️ RECOMMENDED ACTIONS:", "• 1-2 din mein dermatologist ko dikhayein",
     "• Affected area ko clean aur dry rakhein",
     "• Doctor ki advice bina medicine na lein", ""]
  else
    ["📋 GENERAL CARE:", "• Area ko saaf aur sukha rakhein",
     "• Kharab kapde avoid karein",
     "• Agar condition worsen ho toh doctor se milein", ""]

/-- The severity-based tail block, English branch. -/
def severityBlockEnglish (severity_level : String) : List String :=
  if severity_level = "severe" then
    ["🚨 URGENT ACTION REQUIRED:", "• Seek immediate medical attention",
     "• Visit emergency if symptoms worsen", "• Avoid self-medication", ""]
  else if severity_level = "moderate" then
    ["⚠️ RECOMMENDED ACTIONS:", "• Consult a dermatologist within 1-2 days",
     "• Keep the affected area clean and dry",
     "• Avoid applying anything without medical advice", ""]
  else
    ["📋 GENERAL CARE:", "• Keep area clean and dry",
     "• Avoid tight or irritating clothing",
     "• Monitor for changes and consult if worsens", ""]

/-- `_get_detailed_recommendations`. -/
def _get_detailed_recommendations (condition_detection : Detection)
    (severity : SeverityAssessment) (language : String) : List String :=
  let findings := condition_detection.findings
  let severity_level := severity.level
  if language = "hindi" then
    ["🔬 ANALYSIS RESULTS:", ""] ++
    (if findings = [] then
      ["✅ Koi specific concern detect nahi hua",
       "📋 General skin care follow karein"]
     else
      ["⚠️ Severity Level: " ++ severity_level.toUpper,
       "📊 " ++ toString findings.length ++ " potential concern(s) detected",
       ""] ++ findingLinesHindi findings ++ [""]) ++
    severityBlockHindi severity_level
  else
    ["🔬 ANALYSIS RESULTS:", ""] ++
    (if findings = [] then
      ["✅ No specific concerns detected",
       "📋 Continue with general skin care"]
     else
      ["⚠️ Severity Level: " ++ severity_level.toUpper,
       "📊 " ++ toString findings.length ++ " potential concern(s) detected",
       ""] ++ findingLinesEnglish findings ++ [""]) ++
    severityBlockEnglish severity_level

/-- `_get_next_steps`. -/
def _get_next_steps (severity : SeverityAssessment) (language : String) : List String :=
  let urgency := severity.urgency
  if language = "hindi" then
    if urgency = "high" then
      ["1. Turant doctor se appointment lein",
       "2. In results ko doctor ko dikhayein",
       "3. Koi bhi changes monitor karein",
       "4. Emergency mein 102 ya nearest hospital jaayein"]
    else if urgency = "medium" then
      ["1. 24-48 ghante mein dermatologist se appointment lein",
       "2. Image aur analysis report save karein",
       "3. Daily changes track karein",
       "4. Agar worsen ho toh immediately help lein"]
    else
      ["1. General skin care routine follow karein",
       "2. Changes monitor karein",
       "3. Agar 3-4 din mein theek na ho toh doctor se milein",
       "4. Affected area ko protect karein"]
  else
    if urgency = "high" then
      ["1. Schedule immediate doctor appointment",
       "2. Show these results to your doctor",
       "3. Monitor for any changes",
       "4. Go to emergency if symptoms worsen"]
    else if urgency = "medium" then
      ["1. Schedule dermatologist appointment within 24-48 hours",
       "2. Save this image and analysis report",
       "3. Track daily changes",
       "4. Seek immediate help if condition worsens"]
    else
      ["1. Continue general skin care routine",
       "2. Monitor for changes",
       "3. Consult doctor if no improvement in 3-4 days",
       "4. Protect the affected area"]

/-- `_calculate_overall_confidence`. -/
def _calculate_overall_confidence (condition_detection : Detection) : String :=
  if condition_detection.findings = [] then "low - no specific conditions detected"
  else if condition_detection.confidence_scores ≠ [] then
    let avg_confidence := (condition_detection.confidence_scores.map Prod.snd).sum /
      (condition_detection.confidence_scores.length : ℚ)
    if 70 < avg_confidence then "moderate-high (visual analysis only)"
    else if 50 < avg_confidence then "moderate (visual analysis only)"
    else "low-moderate (visual analysis only)"
  else "moderate (preliminary analysis)"

/-- `_get_disclaimer` (`dict.get(language, english)`: any language other
than `hindi` receives the English text). -/
def _get_disclaimer (language : String) : String :=
  if language = "hindi" then
    "\n⚠️ IMPORTANT DISCLAIMER:\nYeh automated image analysis hai aur professional medical diagnosis ka replacement NAHI hai. \nAccurate diagnosis ke liye qualified dermatologist ya doctor se milein.\nEmergency mein turant medical help lein.\n"
  else
    "\n⚠️ IMPORTANT DISCLAIMER:\nThis is an automated image analysis and is NOT a replacement for professional medical diagnosis.\nPlease consult a qualified dermatologist or doctor for accurate diagnosis.\nSeek immediate medical help in case of emergency.\n"

/-- `_assess_image_quality` on the (resized) original image. -/
def _assess_image_quality (image : Image) : String :=
  let total_pixels := Image.width image * Image.height image
  if 1000000 ≤ total_pixels then "excellent"
  else if 500000 ≤ total_pixels then "good"
  else if 200000 ≤ total_pixels then "moderate"
  else "low"

/-- The dictionary built by `analyze_image_comprehensive`.  (The
source's `format` entry — the PIL `format` attribute, which is `None`
for converted images — is unused downstream and not modelled.) -/
structure ComprehensiveAnalysis where
  resolution : String
  aspect_ratio : ℚ
  quality_score : String
  color_analysis : ColorAnalysis
  texture_analysis : TextureAnalysis
  total_pixels : ℕ
  enhancement_applied : Bool

/-- `analyze_image_comprehensive`: quality on the original, features on
the enhanced image. -/
noncomputable def analyze_image_comprehensive (image : Image)
    (enhanced_image : Image) : ComprehensiveAnalysis :=
  { resolution := toString (Image.width image) ++ "x" ++ toString (Image.height image)
    aspect_ratio := pyRound2 ((Image.width image : ℚ) / (Image.height image : ℚ))
    quality_score := _assess_image_quality image
    color_analysis := analyze_colors enhanced_image
    texture_analysis := analyze_texture enhanced_image
    total_pixels := Image.width image * Image.height image
    enhancement_applied := true }

/-! ## Full pipeline (`analyze_skin_condition`) and history tracker -/

/-- The `color_metrics` sub-dictionary of the final report. -/
structure VisualColorMetrics where
  mean_rgb : List ℚ
  redness_score : ℚ
  dominant_color : List ℤ
  inflammation : InflammationIndicators

/-- The `texture_metrics` sub-dictionary of the final report. -/
structure VisualTextureMetrics where
  smoothness : ℚ
  texture_type : String
  edge_density : ℚ
  entropy : ℝ

/-- `visual_analysis` in the final report. -/
structure VisualAnalysis where
  color_metrics : VisualColorMetrics
  texture_metrics : VisualTextureMetrics

/-- The complete `analysis` dictionary returned on success. -/
structure SkinAnalysisReport where
  metadata : ImageMetadata
  image_quality : String
  resolution : String
  analysis_timestamp : String
  visual_analysis : VisualAnalysis
  condition_detection : Detection
  severity_assessment : SeverityAssessment
  recommendations : List String
  confidence_level : String
  disclaimer : String
  next_steps : List String

/-- One entry of `self.analysis_history`. -/
structure HistoryRecord where
  timestamp : String
  image_hash : String
  findings : List ConditionFinding
  severity : SeverityAssessment
deriving DecidableEq

/-- The `{'success', 'error', 'analysis'}` dictionary returned by
`analyze_skin_condition`. -/
structure AnalysisOutcome where
  success : Bool
  error : Option String
  analysis : Option SkinAnalysisReport

/-- One invocation's inputs and external-library outcomes:
`image_data` and `language` are the arguments; `decoded` is the PIL
decode outcome inside `validate_image`; `preprocessed` is the
`(original, enhanced)` pair produced by `preprocess_image`, with `none`
modelling any exception raised inside the `try` block
(`processing_error` is that exception's `str(e)`); `now` stands for the
`datetime.now()` readings. -/
structure AnalysisInput where
  image_data : List ℕ
  decoded : Except String DecodedImage
  preprocessed : Option (Image × Image)
  processing_error : String
  now : String
  language : String

/-- `analyze_skin_condition`, with the history list threaded explicitly
(it is the only mutable analyzer state).  The `(true, none)` metadata
case of the match is unreachable: `validate_image` returns metadata
exactly on the valid path. -/
noncomputable def analyze_skin_condition (inp : AnalysisInput)
    (analysis_history : List HistoryRecord) :
    AnalysisOutcome × List HistoryRecord :=
  let v := validate_image inp.image_data "image/jpeg" inp.decoded inp.now
  match v.is_valid, v.metadata with
  | true, some metadata =>
    match inp.preprocessed with
    | none =>
      (⟨false, some ("Error processing image: " ++ inp.processing_error), none⟩,
       analysis_history)
    | some oe =>
      let comprehensive := analyze_image_comprehensive oe.1 oe.2
      let condition_detection := detect_skin_condition_type
        comprehensive.color_analysis comprehensive.texture_analysis
      let severity := _assess_severity comprehensive.color_analysis
        comprehensive.texture_analysis
      let analysis : SkinAnalysisReport :=
        { metadata := metadata
          image_quality := comprehensive.quality_score
          resolution := comprehensive.resolution
          analysis_timestamp := inp.now
          visual_analysis :=
            { color_metrics :=
                { mean_rgb := comprehensive.color_analysis.mean_rgb
                  redness_score := comprehensive.color_analysis.redness_score
                  dominant_color := comprehensive.color_analysis.dominant_color
                  inflammation := comprehensive.color_analysis.inflammation_indicators }
              texture_metrics :=
                { smoothness := comprehensive.texture_analysis.smoothness
                  texture_type := comprehensive.texture_analysis.texture_type
                  edge_density := comprehensive.texture_analysis.edge_density
                  entropy := comprehensive.texture_analysis.entropy } }
          condition_detection := condition_detection
          severity_assessment := severity
          recommendations := _get_detailed_recommendations condition_detection
            severity inp.language
          confidence_level := _calculate_overall_confidence condition_detection
          disclaimer := _get_disclaimer inp.language
          next_steps := _get_next_steps severity inp.language }
      (⟨true, none, some analysis⟩,
       analysis_history ++
         [{ timestamp := inp.now
            image_hash := ImageMetadata.image_hash metadata
            findings := condition_detection.findings
            severity := severity }])
  | _, _ => (⟨false, some v.message, none⟩, analysis_history)

/-- The history record appended by a successful run, recomputed directly
from the invocation's inputs (used to state that history is appended
exactly on success). -/
noncomputable def newHistoryRecord (inp : AnalysisInput) : HistoryRecord :=
  let oe := inp.preprocessed.getD (⟨[]⟩, ⟨[]⟩)
  let comprehensive := analyze_image_comprehensive oe.1 oe.2
  let condition_detection := detect_skin_condition_type
    comprehensive.color_analysis comprehensive.texture_analysis
  { timestamp := inp.now
    image_hash := md5Hex inp.image_data
    findings := condition_detection.findings
    severity := _assess_severity comprehensive.color_analysis
      comprehensive.texture_analysis }

/-- `_get_trend_recommendation`. -/
def _get_trend_recommendation (trend : String) : String :=
  if trend = "worsening" then
    "Condition appears to be worsening. Seek medical attention immediately."
  else if trend = "improving" then
    "Condition shows signs of improvement. Continue current treatment."
  else "Condition appears stable. Continue monitoring."

/-- The trend dictionary returned by `compare_with_history`. -/
structure TrendComparison where
  trend : String
  severity_change : ℤ
  previous_date : String
  current_date : String
  recommendation : String
deriving DecidableEq

/-- `compare_with_history`.  The
`for i in range(len(history) - 2, -1, -1)` scan — the first record,
walking backwards over every record but the last, whose hash differs
from `current_image_hash` — is `dropLast.reverse.find?`. -/
def compare_with_history (analysis_history : List HistoryRecord)
    (current_image_hash : String) : Option TrendComparison :=
  if analysis_history.length < 2 then none
  else
    match analysis_history.dropLast.reverse.find?
        (fun r => decide (r.image_hash ≠ current_image_hash)) with
    | none => none
    | some previous =>
      match analysis_history.getLast? with
      | none => none  -- unreachable: the length is at least 2
      | some current =>
        let change : ℤ := (current.severity.score : ℤ) - (previous.severity.score : ℤ)
        let trend := if 1 < change then "worsening"
                     else if change < -1 then "improving"
                     else "stable"
        some { trend := trend
               severity_change := change
               previous_date := previous.timestamp
               current_date := current.timestamp
               recommendation := _get_trend_recommendation trend }

/-! ## Spec-side reference definitions

These follow the wording of the specification (§4.5, §4.6, §4.8 and the
glossary), to be compared against the code-side definitions above. -/

/-- Spec §4.6: the redness contribution, a single capped bucket. -/
def specRednessPoints (redness : ℚ) : ℕ :=
  if 60 < redness then 3 else if 40 < redness then 2 else if 20 < redness then 1 else 0

/-- Spec §4.6: the inflamed-pixel-percentage contribution. -/
def specInflammationPoints (red_percentage : ℚ) : ℕ :=
  if 50 < red_percentage then 3 else if 30 < red_percentage then 2
  else if 15 < red_percentage then 1 else 0

/-- Spec §4.6: the flat edge-density contribution. -/
def specEdgePoints (edge_density : ℚ) : ℕ :=
  if 0.2 < edge_density then 1 else 0

/-- Spec §4.6: the exact total-to-level/urgency mapping. -/
def specLevelUrgency (total : ℕ) : String × String :=
  if 6 ≤ total then ("severe", "high")
  else if 4 ≤ total then ("moderate", "medium")
  else if 2 ≤ total then ("mild", "low")
  else ("minimal", "routine")

/-- Spec §4.5, rule 1: the inflammatory finding. -/
def specInflammatoryFinding : ConditionFinding :=
  { condition := "inflammatory_skin_condition"
    confidence := "moderate"
    indicators := ["high_redness", "inflammation_detected"]
    warning := none }

/-- Spec §4.5, rule 2: the rash/eczema finding. -/
def specRashEczemaFinding : ConditionFinding :=
  { condition := "possible_rash_or_eczema"
    confidence := "moderate"
    indicators := ["redness", "rough_texture"]
    warning := none }

/-- Spec §4.5, rule 3: the irregular-texture finding. -/
def specIrregularFinding : ConditionFinding :=
  { condition := "irregular_surface_texture"
    confidence := "low-moderate"
    indicators := ["high_edge_density", "texture_variation"]
    warning := none }

/-- Spec §4.5, rule 4: the dark-pigmentation finding with its urgent
dermatologist-referral warning. -/
def specDarkPigmentationFinding : ConditionFinding :=
  { condition := "dark_pigmentation"
    confidence := "low"
    indicators := ["dark_coloration"]
    warning := some "URGENT: Dark or irregular moles should be checked by a dermatologist immediately" }

/-- Spec §4.5: the four-rule reference chain, evaluated unconditionally
in a fixed order, each rule contributing zero or one finding. -/
def specRuleChain (color_analysis : ColorAnalysis)
    (texture_analysis : TextureAnalysis) : List ConditionFinding :=
  (if 30 < color_analysis.redness_score ∧
      40 < color_analysis.inflammation_indicators.red_dominant_percentage then
    [specInflammatoryFinding] else []) ++
  (if 30 < color_analysis.redness_score ∧ texture_analysis.texture_type = "rough" then
    [specRashEczemaFinding] else []) ++
  (if 0.15 < texture_analysis.edge_density then [specIrregularFinding] else []) ++
  (if (∀ c ∈ color_analysis.dominant_color, c < 80) ∧
      color_analysis.dominant_color.sum < 180 then
    [specDarkPigmentationFinding] else [])

/-- Spec §4.8: the trend record derived from the current record and the
most recent distinct-fingerprint prior record. -/
def specTrendOf (previous current : HistoryRecord) : TrendComparison :=
  let change : ℤ := (current.severity.score : ℤ) - (previous.severity.score : ℤ)
  let trend := if 1 < change then "worsening"
               else if change < -1 then "improving"
               else "stable"
  { trend := trend
    severity_change := change
    previous_date := previous.timestamp
    current_date := current.timestamp
    recommendation := _get_trend_recommendation trend }

/-- A 200×200 well-formed decode outcome (PNG, RGB, no EXIF). -/
def decoded200 : DecodedImage :=
  { format := some "PNG", mode := "RGB", width := 200, height := 200, exif := [] }

/-- A 90×90 decode outcome (below the 100px resolution floor). -/
def decoded90 : DecodedImage :=
  { format := some "PNG", mode := "RGB", width := 90, height := 90, exif := [] }

/-- The first collision buffer padded with zero bytes up to 1 KiB, so
that it passes the validator's size floor. -/
def collisionBlobA : List ℕ := collisionMsgA ++ List.replicate 896 0

/-- The second collision buffer padded identically. -/
def collisionBlobB : List ℕ := collisionMsgB ++ List.replicate 896 0

/-- A one-pixel inflamed image, used as a concrete witness input. -/
def sampleImage : Image := ⟨[[{ r := 200, g := 80, b := 80 }]]⟩

/-- A complete concrete invocation input for witnesses. -/
def sampleInput : AnalysisInput :=
  { image_data := List.replicate 1024 128
    decoded := Except.ok decoded200
    preprocessed := some (sampleImage, sampleImage)
    processing_error := ""
    now := "t"
    language := "english" }

/-! ## Helper lemmas -/

theorem npVar_nonneg (xs : List ℚ) : 0 ≤ npVar xs := by
  unfold npVar
  apply div_nonneg
  · apply List.sum_nonneg
    intro x hx
    rcases List.mem_map.mp hx with ⟨a, _, rfl⟩
    exact sq_nonneg _
  · exact_mod_cast Nat.zero_le _

theorem smoothness_lt_one (gray_array : GrayImage) :
    _calculate_smoothness gray_array < 1 := by
  unfold _calculate_smoothness
  have hv := npVar_nonneg (grayValues gray_array)
  have hpos : (0 : ℚ) < 1 + npVar (grayValues gray_array) := by linarith
  have : (0 : ℚ) < 1 / (1 + npVar (grayValues gray_array)) := by positivity
  linarith

theorem smoothness_nonneg (gray_array : GrayImage) :
    0 ≤ _calculate_smoothness gray_array := by
  unfold _calculate_smoothness
  have hv := npVar_nonneg (grayValues gray_array)
  have hpos : (0 : ℚ) < 1 + npVar (grayValues gray_array) := by linarith
  have : 1 / (1 + npVar (grayValues gray_array)) ≤ 1 := by
    rw [div_le_one hpos]; linarith
  linarith

/-! ## Claims -/

/-- C3: for every image, the redness score is
`clamp(0, 100, ((mean R − mean G) + (mean R − mean B)) / 2 / 2.55)` when
both the green and the blue channel means are positive, is `0` when
either mean is non-positive, and always lies in `[0, 100]`. -/
theorem redness_score_clamp_and_bounds (r g b : List ℕ) :
    _calculate_redness_score r g b =
      (if 0 < npMean (g.map (fun x => (x : ℚ))) ∧ 0 < npMean (b.map (fun x => (x : ℚ))) then
        clamp 0 100
          (((npMean (r.map (fun x => (x : ℚ))) - npMean (g.map (fun x => (x : ℚ)))) +
            (npMean (r.map (fun x => (x : ℚ))) - npMean (b.map (fun x => (x : ℚ))))) / 2 / 2.55)
      else 0) ∧
    0 ≤ _calculate_redness_score r g b ∧ _calculate_redness_score r g b ≤ 100 := by
  unfold _calculate_redness_score clamp
  refine ⟨rfl, ?_, ?_⟩ <;> (dsimp only; split_ifs)
  · exact le_max_left 0 _
  · exact le_refl 0
  · exact max_le (by norm_num) (min_le_left _ _)
  · norm_num

/-- C6: for every grayscale image, smoothness is `1 − 1/(1 + variance)`
of the pixel intensities, lies in `[0, 1)`, approaches `1` for
high-variance images (for any `ε > 0`, variance at least `1/ε` forces
smoothness at least `1 − ε`), and the texture-type label is `"rough"`
exactly when smoothness is below `0.5`, `"smooth"` otherwise. -/
theorem smoothness_formula_bounds_and_texture_type (gray_array : GrayImage) :
    _calculate_smoothness gray_array = 1 - 1 / (1 + npVar (grayValues gray_array)) ∧
    0 ≤ _calculate_smoothness gray_array ∧
    _calculate_smoothness gray_array < 1 ∧
    ((textureStats gray_array).texture_type = "rough" ↔
      _calculate_smoothness gray_array < 0.5) ∧
    ((textureStats gray_array).texture_type = "smooth" ↔
      ¬ _calculate_smoothness gray_array < 0.5) ∧
    (∀ ε : ℚ, 0 < ε → 1 / ε ≤ npVar (grayValues gray_array) →
      1 - ε ≤ _calculate_smoothness gray_array) := by
  refine ⟨rfl, smoothness_nonneg gray_array, smoothness_lt_one gray_array, ?_, ?_, ?_⟩
  · unfold textureStats
    dsimp only
    split_ifs with h
    · simpa using h
    · constructor
      · intro hs; exact absurd hs (by decide)
      · intro hs; exact absurd hs h
  · unfold textureStats
    dsimp only
    split_ifs with h
    · constructor
      · intro hs; exact absurd hs (by decide)
      · intro hs; exact absurd h hs
    · simpa using h
  · intro ε hε hv
    unfold _calculate_smoothness
    have hεv : (0 : ℚ) < 1 / ε := by positivity
    have hvpos : (0 : ℚ) < npVar (grayValues gray_array) := lt_of_lt_of_le hεv hv
    have h1 : 1 / npVar (grayValues gray_array) ≤ ε := by
      rw [div_le_iff hvpos]
      rw [div_le_iff hε] at hv
      linarith [mul_comm (npVar (grayValues gray_array)) ε]
    have h2 : 1 / (1 + npVar (grayValues gray_array)) ≤
        1 / npVar (grayValues gray_array) := by
      apply one_div_le_one_div_of_le hvpos
      linarith
    linarith

/-- Witness for C6's high-variance conjunct: a concrete rough grid
whose variance exceeds `1/ε` for `ε = 1/2`. -/
theorem smoothness_formula_bounds_and_texture_type_witness :
    (0 : ℚ) < 1 / 2 ∧ 1 / (1 / 2 : ℚ) ≤ npVar (grayValues [[0, 10], [20, 200]]) ∧
    1 - (1 / 2 : ℚ) ≤ _calculate_smoothness [[0, 10], [20, 200]] := by
  have h2 : 1 / (1 / 2 : ℚ) ≤ npVar (grayValues [[0, 10], [20, 200]]) := by
    simp only [grayValues, npVar, npMean, List.flatten, List.map, List.append_nil,
      List.cons_append, List.nil_append, List.sum_cons, List.sum_nil, List.length_cons,
      List.length_nil]
    norm_num
  exact ⟨by norm_num, h2,
    (smoothness_formula_bounds_and_texture_type [[0, 10], [20, 200]]).2.2.2.2.2
      (1 / 2) (by norm_num) h2⟩

/-- C1: the severity score is the sum of three independently capped
contributions (redness bucket, inflamed-percentage bucket, flat edge
point), hence lies in `[0, 7]`, and the level/urgency pair follows the
exact mapping `≥6 → severe/high`, `≥4 → moderate/medium`,
`≥2 → mild/low`, else `minimal/routine`, checked at every score value
`0..7`. -/
theorem severity_score_sum_bound_and_mapping
    (color_analysis : ColorAnalysis) (texture_analysis : TextureAnalysis) :
    (_assess_severity color_analysis texture_analysis).score =
      specRednessPoints color_analysis.redness_score +
        specInflammationPoints
          color_analysis.inflammation_indicators.red_dominant_percentage +
        specEdgePoints texture_analysis.edge_density ∧
    (_assess_severity color_analysis texture_analysis).score ≤ 7 ∧
    ((_assess_severity color_analysis texture_analysis).level,
      (_assess_severity color_analysis texture_analysis).urgency) =
      specLevelUrgency (_assess_severity color_analysis texture_analysis).score ∧
    specLevelUrgency 0 = ("minimal", "routine") ∧
    specLevelUrgency 1 = ("minimal", "routine") ∧
    specLevelUrgency 2 = ("mild", "low") ∧
    specLevelUrgency 3 = ("mild", "low") ∧
    specLevelUrgency 4 = ("moderate", "medium") ∧
    specLevelUrgency 5 = ("moderate", "medium") ∧
    specLevelUrgency 6 = ("severe", "high") ∧
    specLevelUrgency 7 = ("severe", "high") := by
  refine ⟨?_, ?_, ?_, rfl, rfl, rfl, rfl, rfl, rfl, rfl, rfl⟩
  · unfold _assess_severity specRednessPoints specInflammationPoints specEdgePoints
    dsimp only
    split_ifs <;> rfl
  · unfold _assess_severity
    dsimp only
    split_ifs <;> omega
  · rfl

/-- C2: the classifier's finding list equals the four-rule reference
chain (inflammatory, rash/eczema, irregular-texture, dark-pigmentation
with its urgent warning) evaluated in order, findings may coexist, and
`requires_professional_evaluation` is true exactly when at least one
finding fired. -/
theorem classifier_matches_reference_chain
    (color_analysis : ColorAnalysis) (texture_analysis : TextureAnalysis) :
    (detect_skin_condition_type color_analysis texture_analysis).findings =
      specRuleChain color_analysis texture_analysis ∧
    ((detect_skin_condition_type color_analysis
        texture_analysis).requires_professional_evaluation = true ↔
      (detect_skin_condition_type color_analysis texture_analysis).findings ≠ []) := by
  constructor
  · unfold detect_skin_condition_type specRuleChain
    dsimp only
    split_ifs <;>
      simp_all [specInflammatoryFinding, specRashEczemaFinding,
        specIrregularFinding, specDarkPigmentationFinding, List.all_eq_true]
  · have h : (detect_skin_condition_type color_analysis
        texture_analysis).requires_professional_evaluation
        = decide (0 < (detect_skin_condition_type color_analysis
            texture_analysis).findings.length) := rfl
    rw [h]
    simp [List.length_pos]

/-- Helper: whatever metadata the validator returns carries the MD5 hex
digest of the raw bytes as its fingerprint. -/
theorem validate_metadata_hash (image_data : List ℕ) (ct now : String)
    (decoded : Except String DecodedImage) (md : ImageMetadata)
    (h : (validate_image image_data ct decoded now).metadata = some md) :
    md.image_hash = md5Hex image_data := by
  unfold validate_image at h
  rcases decoded with e | image <;> dsimp only at h <;>
    split_ifs at h <;>
      first
        | exact Option.noConfusion h
        | (injection h with h; subst h; rfl)

set_option maxRecDepth 8000

/-- C4: the validator fails exactly when the buffer exceeds 10 MiB, is
below 1 KiB, the bytes fail to decode, the decoded format is outside
the supported set, or either pixel dimension is below 100px; a 900-byte
buffer, an 11 MiB buffer and a 90×90 image are rejected with the
corresponding messages, while a well-formed 200×200 image within the
size bounds is accepted and carries metadata. -/
theorem validate_image_rejects_iff :
    (∀ (image_data : List ℕ) (ct now : String) (decoded : Except String DecodedImage),
      (validate_image image_data ct decoded now).is_valid = false ↔
        (max_image_size < image_data.length ∨ image_data.length < min_image_size ∨
         (∃ e, decoded = Except.error e) ∨
         (∃ image, decoded = Except.ok image ∧
           (¬ supported_formats.contains ((image.format.map pyLower).getD "") ∨
            image.width < 100 ∨ image.height < 100)))) ∧
    (validate_image (List.replicate 900 0) "image/jpeg"
      (Except.ok decoded200) "t").is_valid = false ∧
    (validate_image (List.replicate 900 0) "image/jpeg"
      (Except.ok decoded200) "t").message =
      "Image too small. Please send a clear image." ∧
    (validate_image (List.replicate (11 * 1024 * 1024) 0) "image/jpeg"
      (Except.ok decoded200) "t").is_valid = false ∧
    (validate_image (List.replicate (11 * 1024 * 1024) 0) "image/jpeg"
      (Except.ok decoded200) "t").message =
      "Image too large. Please send an image smaller than 10MB." ∧
    (validate_image (List.replicate 1024 128) "image/jpeg"
      (Except.ok decoded90) "t").is_valid = false ∧
    (validate_image (List.replicate 1024 128) "image/jpeg"
      (Except.ok decoded90) "t").message =
      "Image resolution too low. Please send a clearer image." ∧
    (validate_image (List.replicate 1024 128) "image/jpeg"
      (Except.ok decoded200) "t").is_valid = true ∧
    ((validate_image (List.replicate 1024 128) "image/jpeg"
      (Except.ok decoded200) "t").metadata).isSome = true := by
  refine ⟨?_, by decide, by decide, ?_, ?_, by decide, by decide, rfl, rfl⟩
  · intro image_data ct now decoded
    unfold validate_image
    rcases decoded with e | image <;> dsimp only <;> split_ifs <;> simp_all
  · simp only [validate_image, List.length_replicate]
    norm_num [max_image_size]
  · simp only [validate_image, List.length_replicate]
    norm_num [max_image_size]

/-- Helper: an accepted buffer's metadata fingerprint is the MD5 hex
digest of the raw bytes. -/
theorem validate_hash_of_valid (image_data : List ℕ) (ct now : String)
    (decoded : Except String DecodedImage)
    (h : (validate_image image_data ct decoded now).is_valid = true) :
    (validate_image image_data ct decoded now).metadata.map ImageMetadata.image_hash =
      some (md5Hex image_data) := by
  rcases hm : (validate_image image_data ct decoded now).metadata with _ | md
  · exfalso
    unfold validate_image at h hm
    rcases decoded with e | image <;> dsimp only at h hm <;>
      split_ifs at h hm <;>
        first
          | exact Bool.noConfusion h
          | exact Option.noConfusion hm
  · simp [validate_metadata_hash image_data ct now decoded md hm]

/-- C5 counterexample: two distinct byte buffers (a classical MD5
collision pair, zero-padded past the validator's 1 KiB floor) are both
accepted and receive the same content fingerprint — so the fingerprint
is not produced by a collision-resistant (cryptographic-strength)
hash. -/
theorem fingerprint_md5_collision :
    collisionBlobA ≠ collisionBlobB ∧
    md5Hex collisionBlobA = md5Hex collisionBlobB ∧
    (validate_image collisionBlobA "image/jpeg"
      (Except.ok decoded200) "t").is_valid = true ∧
    (validate_image collisionBlobB "image/jpeg"
      (Except.ok decoded200) "t").is_valid = true ∧
    (validate_image collisionBlobA "image/jpeg"
      (Except.ok decoded200) "t").metadata.map ImageMetadata.image_hash =
      (validate_image collisionBlobB "image/jpeg"
        (Except.ok decoded200) "t").metadata.map ImageMetadata.image_hash := by
  have hcol : md5Hex collisionBlobA = md5Hex collisionBlobB := by decide
  refine ⟨by decide, hcol, rfl, rfl, ?_⟩
  rw [validate_hash_of_valid collisionBlobA "image/jpeg" "t"
      (Except.ok decoded200) rfl,
    validate_hash_of_valid collisionBlobB "image/jpeg" "t"
      (Except.ok decoded200) rfl, hcol]

/-- C5 (amended): for every accepted image the content fingerprint is
the MD5 hex digest of the raw image bytes — a pure function of those
bytes — but MD5 is not cryptographic-strength: distinct accepted
buffers can share a fingerprint. -/
theorem fingerprint_is_md5_of_bytes (image_data : List ℕ) (ct now : String)
    (decoded : Except String DecodedImage)
    (h : (validate_image image_data ct decoded now).is_valid = true) :
    (validate_image image_data ct decoded now).metadata.map ImageMetadata.image_hash =
      some (md5Hex image_data) :=
  validate_hash_of_valid image_data ct now decoded h

/-- Witness for C5's amended theorem at a concrete accepted buffer. -/
theorem fingerprint_is_md5_of_bytes_witness :
    (validate_image (List.replicate 1024 128) "image/jpeg"
      (Except.ok decoded200) "t").is_valid = true ∧
    (validate_image (List.replicate 1024 128) "image/jpeg"
      (Except.ok decoded200) "t").metadata.map ImageMetadata.image_hash =
      some (md5Hex (List.replicate 1024 128)) :=
  ⟨rfl, fingerprint_is_md5_of_bytes (List.replicate 1024 128) "image/jpeg" "t"
    (Except.ok decoded200) rfl⟩

/-- C7: the full entry point is total and discriminated — every call
returns either a success carrying a report with no error, or a failure
carrying a human-readable error string and no (even partial) report. -/
theorem analyze_skin_condition_failure_discipline (inp : AnalysisInput)
    (analysis_history : List HistoryRecord) :
    ((analyze_skin_condition inp analysis_history).1.success = true ∧
     (analyze_skin_condition inp analysis_history).1.error = none ∧
     ((analyze_skin_condition inp analysis_history).1.analysis).isSome = true) ∨
    ((analyze_skin_condition inp analysis_history).1.success = false ∧
     (analyze_skin_condition inp analysis_history).1.analysis = none ∧
     ((analyze_skin_condition inp analysis_history).1.error).isSome = true) := by
  cases hv : (validate_image inp.image_data "image/jpeg" inp.decoded inp.now).is_valid <;>
    cases hm : (validate_image inp.image_data "image/jpeg" inp.decoded inp.now).metadata <;>
      cases hp : inp.preprocessed <;>
        simp [analyze_skin_condition, hv, hm, hp]

/-- C10: a history record is appended exactly when the call succeeds;
failures leave the analyzer's history unchanged. -/
theorem history_appended_iff_success (inp : AnalysisInput)
    (analysis_history : List HistoryRecord) :
    (analyze_skin_condition inp analysis_history).2 =
      (if (analyze_skin_condition inp analysis_history).1.success = true then
        analysis_history ++ [newHistoryRecord inp]
      else analysis_history) := by
  cases hv : (validate_image inp.image_data "image/jpeg" inp.decoded inp.now).is_valid <;>
    cases hm : (validate_image inp.image_data "image/jpeg" inp.decoded inp.now).metadata <;>
      cases hp : inp.preprocessed <;>
        (simp [analyze_skin_condition, newHistoryRecord, hv, hm, hp] <;>
          first
          | exact validate_metadata_hash inp.image_data "image/jpeg" inp.now
              inp.decoded _ hm
          | exact (validate_metadata_hash inp.image_data "image/jpeg" inp.now
              inp.decoded _ hm).symm)

/-- C9: the color profile, texture profile and severity assessment are
pure functions of the pixel data — identical pixel data yields
bit-identical results — and the entry point's returned outcome does not
depend on the analyzer's prior history state. -/
theorem analysis_deterministic_state_independent
    (img img2 : Image) (h : img = img2) (inp : AnalysisInput)
    (hist1 hist2 : List HistoryRecord) :
    analyze_colors img = analyze_colors img2 ∧
    analyze_texture img = analyze_texture img2 ∧
    _assess_severity (analyze_colors img) (analyze_texture img) =
      _assess_severity (analyze_colors img2) (analyze_texture img2) ∧
    (analyze_skin_condition inp hist1).1 = (analyze_skin_condition inp hist2).1 := by
  subst h
  refine ⟨rfl, rfl, rfl, ?_⟩
  cases hv : (validate_image inp.image_data "image/jpeg" inp.decoded inp.now).is_valid <;>
    cases hm : (validate_image inp.image_data "image/jpeg" inp.decoded inp.now).metadata <;>
      cases hp : inp.preprocessed <;>
        simp [analyze_skin_condition, hv, hm, hp]

/-- Witness for C9 at concrete pixel data and history states. -/
theorem analysis_deterministic_state_independent_witness :
    sampleImage = sampleImage ∧
    analyze_colors sampleImage = analyze_colors sampleImage ∧
    analyze_texture sampleImage = analyze_texture sampleImage ∧
    (analyze_skin_condition sampleInput []).1 =
      (analyze_skin_condition sampleInput []).1 := by
  have h := analysis_deterministic_state_independent sampleImage sampleImage rfl
    sampleInput [] []
  exact ⟨rfl, h.1, h.2.1, h.2.2.2⟩

/-- Helper: a list ending in `a` has fewer than two distinct elements
exactly when every earlier element equals `a`. -/
theorem dedup_concat_length_lt_two {α : Type _} [DecidableEq α]
    (xs : List α) (a : α) :
    ((xs ++ [a]).dedup.length < 2) ↔ ∀ x ∈ xs, x = a := by
  constructor
  · intro h x hx
    have hxd : x ∈ (xs ++ [a]).dedup := List.mem_dedup.mpr (by simp [hx])
    have had : a ∈ (xs ++ [a]).dedup := List.mem_dedup.mpr (by simp)
    rcases hd : (xs ++ [a]).dedup with _ | ⟨b, l⟩
    · rw [hd] at had
      simp at had
    · rcases l with _ | ⟨c, t⟩
      · rw [hd] at hxd had
        simp at hxd had
        rw [hxd, had]
      · rw [hd] at h
        simp only [List.length_cons] at h
        omega
  · intro h
    have hsub : ∀ x ∈ (xs ++ [a]).dedup, x = a := by
      intro x hx
      rcases List.mem_append.mp (List.mem_dedup.mp hx) with h1 | h2
      · exact h x h1
      · simpa using h2
    have hnd : (xs ++ [a]).dedup.Nodup := List.nodup_dedup _
    rcases hd : (xs ++ [a]).dedup with _ | ⟨b, l⟩
    · simp
    · rcases l with _ | ⟨c, t⟩
      · simp
      · exfalso
        rw [hd] at hsub hnd
        have hb : b = a := hsub b (by simp)
        have hc : c = a := hsub c (by simp)
        rw [List.nodup_cons] at hnd
        exact hnd.1 (by rw [hb, hc]; exact List.mem_cons_self a t)

/-- C8: trend computation compares the current record's severity score
with the most recent prior record whose fingerprint differs (difference
greater than 1 → worsening, less than −1 → improving, otherwise
stable), and returns no trend exactly when fewer than two
distinct-fingerprint records exist. -/
theorem compare_with_history_trend_spec (prior : List HistoryRecord)
    (current : HistoryRecord) :
    compare_with_history (prior ++ [current]) current.image_hash =
      (prior.reverse.find?
        (fun r => decide (r.image_hash ≠ current.image_hash))).map
        (fun previous => specTrendOf previous current) ∧
    (compare_with_history (prior ++ [current]) current.image_hash = none ↔
      ((prior ++ [current]).map HistoryRecord.image_hash).dedup.length < 2) := by
  have hmain : compare_with_history (prior ++ [current]) current.image_hash =
      (prior.reverse.find?
        (fun r => decide (r.image_hash ≠ current.image_hash))).map
        (fun previous => specTrendOf previous current) := by
    unfold compare_with_history
    rcases prior with _ | ⟨p, ps⟩
    · simp
    · rw [if_neg (by simp : ¬ ((p :: ps) ++ [current]).length < 2)]
      rw [(List.dropLast_concat : ((p :: ps) ++ [current]).dropLast = p :: ps)]
      rw [(List.getLast?_concat _ : ((p :: ps) ++ [current]).getLast? = some current)]
      cases hfind : (p :: ps).reverse.find?
          (fun r => decide (r.image_hash ≠ current.image_hash)) with
      | none => simp
      | some prev => simp [specTrendOf]
  refine ⟨hmain, ?_⟩
  rw [hmain]
  rcases hfind : prior.reverse.find?
      (fun r => decide (r.image_hash ≠ current.image_hash)) with _ | prev
  · rw [hfind]
    simp only [Option.map_none', List.map_append, List.map_cons, List.map_nil]
    constructor
    · intro _
      apply (dedup_concat_length_lt_two _ _).mpr
      intro x hx
      rcases List.mem_map.mp hx with ⟨r, hr, rfl⟩
      have hnone := List.find?_eq_none.mp hfind r (List.mem_reverse.mpr hr)
      simpa using hnone
    · intro _
      trivial
  · rw [hfind]
    simp only [Option.map_some', List.map_append, List.map_cons, List.map_nil]
    constructor
    · intro hsome
      exact absurd hsome (by simp)
    · intro hcon
      exfalso
      have hmem : prev ∈ prior := List.mem_reverse.mp (List.mem_of_find?_eq_some hfind)
      have hne : prev.image_hash ≠ current.image_hash := by
        have hp := List.find?_some hfind
        simpa using hp
      exact hne ((dedup_concat_length_lt_two _ _).mp hcon prev.image_hash
        (List.mem_map.mpr ⟨prev, hmem, rfl⟩))

end ImageAnalyzer
